import Mathlib

/-!
Verification of the crop-yield predictor (`src/script.js`).

The script computes a per-crop linear-regression yield estimate from raw
form-field strings.  We embed its numeric domain shallowly: JavaScript
numbers are modelled as exact rationals extended with the two infinities,
and NaN is modelled as `none` of an `Option`.  String-to-number conversion
(`parseFloat`) is modelled on the exact decimal grammar (the model keeps
exact rational values where a double would round).
-/

/-- A non-NaN JavaScript number: a finite value (modelled exactly as a
rational) or one of the two infinities. -/
inductive JSNum where
  | fin (q : ℚ)
  | pinf
  | ninf
deriving DecidableEq

/-- A JavaScript number including NaN; `none` is NaN. -/
def JSVal := Option JSNum

instance : DecidableEq JSVal := inferInstanceAs (DecidableEq (Option JSNum))

/-- Embed a finite rational as a JavaScript value. -/
def jfin (q : ℚ) : JSVal := some (JSNum.fin q)

/-- Embed a non-NaN number as a JavaScript value. -/
def jnum (n : JSNum) : JSVal := some n

/-- JavaScript `<=` on non-NaN numbers. -/
def jsLeN : JSNum → JSNum → Bool
  | JSNum.fin a, JSNum.fin b => decide (a ≤ b)
  | JSNum.fin _, JSNum.pinf => true
  | JSNum.fin _, JSNum.ninf => false
  | JSNum.pinf, JSNum.pinf => true
  | JSNum.pinf, _ => false
  | JSNum.ninf, _ => true

/-- JavaScript `<` on non-NaN numbers. -/
def jsLtN : JSNum → JSNum → Bool
  | JSNum.fin a, JSNum.fin b => decide (a < b)
  | JSNum.fin _, JSNum.pinf => true
  | JSNum.fin _, JSNum.ninf => false
  | JSNum.pinf, _ => false
  | JSNum.ninf, JSNum.ninf => false
  | JSNum.ninf, _ => true

/-- JavaScript `<` on values; any comparison involving NaN is false. -/
def jsvLt : JSVal → JSVal → Bool
  | some a, some b => jsLtN a b
  | _, _ => false

/-- JavaScript addition (IEEE sign/infinity rules; `∞ + -∞ = NaN`). -/
def jsAdd : JSVal → JSVal → JSVal
  | some (JSNum.fin a), some (JSNum.fin b) => some (JSNum.fin (a + b))
  | some (JSNum.fin _), some JSNum.pinf => some JSNum.pinf
  | some (JSNum.fin _), some JSNum.ninf => some JSNum.ninf
  | some JSNum.pinf, some (JSNum.fin _) => some JSNum.pinf
  | some JSNum.pinf, some JSNum.pinf => some JSNum.pinf
  | some JSNum.pinf, some JSNum.ninf => none
  | some JSNum.ninf, some (JSNum.fin _) => some JSNum.ninf
  | some JSNum.ninf, some JSNum.pinf => none
  | some JSNum.ninf, some JSNum.ninf => some JSNum.ninf
  | _, _ => none

/-- JavaScript multiplication (IEEE sign/infinity rules; `∞ * 0 = NaN`). -/
def jsMul : JSVal → JSVal → JSVal
  | some (JSNum.fin a), some (JSNum.fin b) => some (JSNum.fin (a * b))
  | some (JSNum.fin a), some JSNum.pinf =>
      if 0 < a then some JSNum.pinf else if a < 0 then some JSNum.ninf else none
  | some (JSNum.fin a), some JSNum.ninf =>
      if 0 < a then some JSNum.ninf else if a < 0 then some JSNum.pinf else none
  | some JSNum.pinf, some (JSNum.fin b) =>
      if 0 < b then some JSNum.pinf else if b < 0 then some JSNum.ninf else none
  | some JSNum.ninf, some (JSNum.fin b) =>
      if 0 < b then some JSNum.ninf else if b < 0 then some JSNum.pinf else none
  | some JSNum.pinf, some JSNum.pinf => some JSNum.pinf
  | some JSNum.pinf, some JSNum.ninf => some JSNum.ninf
  | some JSNum.ninf, some JSNum.pinf => some JSNum.ninf
  | some JSNum.ninf, some JSNum.ninf => some JSNum.pinf
  | _, _ => none

/-- JavaScript `Math.round`: rounds a finite value to the nearest integer,
ties toward positive infinity; NaN and infinities pass through. -/
def jsRoundJS : JSVal → JSVal
  | some (JSNum.fin q) => some (JSNum.fin ((⌊q + 1/2⌋ : ℤ) : ℚ))
  | some JSNum.pinf => some JSNum.pinf
  | some JSNum.ninf => some JSNum.ninf
  | none => none

/-- JavaScript division by the constant 100. -/
def jsDiv100 : JSVal → JSVal
  | some (JSNum.fin q) => some (JSNum.fin (q / 100))
  | some JSNum.pinf => some JSNum.pinf
  | some JSNum.ninf => some JSNum.ninf
  | none => none

/-! ## The `parseFloat` model (ECMAScript decimal-literal grammar, exact) -/

/-- Numeric value of a digit string (most significant first). -/
def digitsToNat (ds : List Char) : ℕ :=
  ds.foldl (fun acc c => 10 * acc + (c.toNat - 48)) 0

/-- Value of a fractional digit string: `digits / 10 ^ length`. -/
def fracToRat (ds : List Char) : ℚ :=
  (digitsToNat ds : ℚ) / (10 ^ ds.length)

/-- Apply exponent digits (if any) to an already-parsed mantissa. -/
def applyExpDigits (base : ℚ) (pos : Bool) (cs : List Char) : ℚ :=
  let ds := cs.takeWhile Char.isDigit
  if ds.isEmpty then base
  else if pos then base * 10 ^ digitsToNat ds
  else base / 10 ^ digitsToNat ds

/-- Parse the optionally-signed exponent digits after `e`/`E`. -/
def applySignedExp (base : ℚ) (cs : List Char) : ℚ :=
  match cs with
  | '+' :: rest => applyExpDigits base true rest
  | '-' :: rest => applyExpDigits base false rest
  | rest => applyExpDigits base true rest

/-- Apply an `e`/`E` exponent part, if present and well-formed; the longest
valid literal prefix wins, so a malformed exponent is ignored. -/
def applyExp (base : ℚ) (cs : List Char) : ℚ :=
  match cs with
  | 'e' :: rest => applySignedExp base rest
  | 'E' :: rest => applySignedExp base rest
  | _ => base

/-- Parse an unsigned decimal literal prefix: digits, an optional point with
optional fraction digits, and an optional exponent.  `none` when no digits
are present at all. -/
def parseUnsignedDec (cs : List Char) : Option ℚ :=
  let ds := cs.takeWhile Char.isDigit
  let rest1 := cs.drop ds.length
  match rest1 with
  | '.' :: rest2 =>
      let fs := rest2.takeWhile Char.isDigit
      if ds.isEmpty && fs.isEmpty then none
      else some (applyExp ((digitsToNat ds : ℚ) + fracToRat fs) (rest2.drop fs.length))
  | _ =>
      if ds.isEmpty then none
      else some (applyExp (digitsToNat ds : ℚ) rest1)

/-- Does the character list start with the keyword `Infinity`? -/
def infinityKeyword : List Char → Bool
  | 'I' :: 'n' :: 'f' :: 'i' :: 'n' :: 'i' :: 't' :: 'y' :: _ => true
  | _ => false

/-- Parse the body after an optional sign: the `Infinity` keyword or an
unsigned decimal literal. -/
def parseBody (cs : List Char) (negSign : Bool) : Option JSNum :=
  if infinityKeyword cs then
    some (if negSign then JSNum.ninf else JSNum.pinf)
  else
    (parseUnsignedDec cs).map (fun q => JSNum.fin (if negSign then -q else q))

/-- JavaScript whitespace characters skipped by `parseFloat`. -/
def isJsSpace (c : Char) : Bool :=
  c = ' ' || c = '\t' || c = '\n' || c = '\r'

/-- Model of JavaScript `parseFloat`: skip leading whitespace, read an
optional sign, then the longest valid decimal-literal or `Infinity` prefix;
`none` models a NaN result. -/
def parseFloatJS (s : String) : Option JSNum :=
  match s.data.dropWhile isJsSpace with
  | '+' :: rest => parseBody rest false
  | '-' :: rest => parseBody rest true
  | rest => parseBody rest false

/-- Model of `parseNumber` from `script.js`: reads the element's value (a missing
element contributes the empty string via `input?.value ?? ''`), parses it
with `parseFloat`, and maps a NaN result to `null` (here `none`). -/
def parseNumber (input : Option String) : Option JSNum :=
  parseFloatJS (input.getD "")

/-! ## Rendering of results (template-string conversion of numbers) -/

/-- Render `n / 100` the way JavaScript prints the corresponding number:
no decimal point for integers, trailing zeros of the fraction dropped. -/
def decimalString2 (n : ℤ) : String :=
  let sign := if n < 0 then "-" else ""
  let m := n.natAbs
  let ip := m / 100
  let fr := m % 100
  if fr = 0 then sign ++ toString ip
  else if fr % 10 = 0 then sign ++ toString ip ++ "." ++ toString (fr / 10)
  else if fr < 10 then sign ++ toString ip ++ ".0" ++ toString fr
  else sign ++ toString ip ++ "." ++ toString fr

/-- JavaScript string conversion of a number, for the values this program
can produce (after rounding every finite result is a multiple of 1/100;
other rationals get a fallback spelling never reached by the program). -/
def jsValToString : JSVal → String
  | none => "NaN"
  | some JSNum.pinf => "Infinity"
  | some JSNum.ninf => "-Infinity"
  | some (JSNum.fin q) =>
      if (q * 100).den = 1 then decimalString2 (q * 100).num
      else toString q.num ++ "/" ++ toString q.den

/-! ## The form state and the `predict` routine -/

/-- The values `predict` reads from the page: the selected crop, the raw
strings of the numeric input elements (`none` models a missing element),
and the management selection. -/
structure FormState where
  crop : String
  tmArea : Option String
  tmRainfall : Option String
  tmFert : Option String
  management : String
  gRainSep : Option String
  gRainOct : Option String
  gRainNov : Option String
  gArea : Option String
  gFert : Option String

/-- The pieces of the page `predict` writes: the error box and the result
field. -/
structure UIState where
  errorText : String
  errorVisible : Bool
  resultValue : String
deriving DecidableEq

/-- Model of `showError` from `script.js`: shows the message and clears the result. -/
def showErrorU (msg : String) : UIState :=
  { errorText := msg, errorVisible := true, resultValue := "" }

/-- The condition `x === null || x <= 0` used for area fields. -/
def badPos (o : Option JSNum) : Bool :=
  match o with
  | none => true
  | some v => jsLeN v (JSNum.fin 0)

/-- The condition `x === null || x < 0` used for rainfall and fertilizer. -/
def badNonneg (o : Option JSNum) : Bool :=
  match o with
  | none => true
  | some v => jsLtN v (JSNum.fin 0)

/-- The Tur regression of `script.js` (lines 126-129), in source operation
order: `-3.32843850766629 + (0.00459239788361382 * rain) +
(4.33370044211268 * area) + (0.0763918341341603 * fert)`. -/
def turFormula (rain area fert : JSNum) : JSVal :=
  jsAdd (jsAdd (jsAdd (jfin (-3.32843850766629))
      (jsMul (jfin 0.00459239788361382) (jnum rain)))
      (jsMul (jfin 4.33370044211268) (jnum area)))
      (jsMul (jfin 0.0763918341341603) (jnum fert))

/-- The Maize base regression of `script.js` (lines 161-164):
`-23.81399768 + (0.039441256 * rainM) + (13.03528484 * areaM) +
(0.031329566 * fertM)`. -/
def maizeBase (rain area fert : JSNum) : JSVal :=
  jsAdd (jsAdd (jsAdd (jfin (-23.81399768))
      (jsMul (jfin 0.039441256) (jnum rain)))
      (jsMul (jfin 13.03528484) (jnum area)))
      (jsMul (jfin 0.031329566) (jnum fert))

/-- The Maize yield: the base regression times the management factor
(0.75 when the management value is `"poor"`, else 1.0 — lines 166-176). -/
def maizeYield (rain area fert : JSNum) (mgmt : String) : JSVal :=
  jsMul (maizeBase rain area fert) (jfin (if mgmt = "poor" then 0.75 else 1.0))

/-- The Maize label chosen alongside the management factor. -/
def maizeLabel (mgmt : String) : String :=
  if mgmt = "poor" then " (Maize, Poor management)" else " (Maize, Good management)"

/-- The Gram regression of `script.js` (lines 202-208), in source order:
`57.91029391 + (9.450850118 * areaG) + (-0.577080551 * rSep) +
(0.069920447 * rOct) + (0.278021178 * rNov) + (-0.006839212 * fertG)`. -/
def gramFormula (rSep rOct rNov area fert : JSNum) : JSVal :=
  jsAdd (jsAdd (jsAdd (jsAdd (jsAdd (jfin 57.91029391)
      (jsMul (jfin 9.450850118) (jnum area)))
      (jsMul (jfin (-0.577080551)) (jnum rSep)))
      (jsMul (jfin 0.069920447) (jnum rOct)))
      (jsMul (jfin 0.278021178) (jnum rNov)))
      (jsMul (jfin (-0.006839212)) (jnum fert))

/-- The `switch` body of `predict`: either the first failing check's error
message, or the raw (pre-clamp, pre-round) yield with its label.  Each
branch mirrors the source's parse-then-validate sequence; the `getD`
defaults are never reached because the guards exclude `none`. -/
def computeRaw (s : FormState) : Except String (JSVal × String) :=
  if s.crop = "" then Except.error "Please select a crop."
  else if s.crop = "tur" then
    let area := parseNumber s.tmArea
    let rain := parseNumber s.tmRainfall
    let fert := parseNumber s.tmFert
    if badPos area then Except.error "Enter a valid positive area for Tur."
    else if badNonneg rain then Except.error "Enter rainfall (mm) for Tur."
    else if badNonneg fert then Except.error "Enter fertilizers (kg) for Tur."
    else Except.ok (turFormula (rain.getD (JSNum.fin 0)) (area.getD (JSNum.fin 0))
      (fert.getD (JSNum.fin 0)), " (Tur)")
  else if s.crop = "maize" then
    let area := parseNumber s.tmArea
    let rain := parseNumber s.tmRainfall
    let fert := parseNumber s.tmFert
    if badPos area then Except.error "Enter a valid positive area for Maize."
    else if badNonneg rain then Except.error "Enter rainfall (mm) for Maize."
    else if badNonneg fert then Except.error "Enter fertilizers (kg) for Maize."
    else if s.management = "" then Except.error "Select quality of management for Maize."
    else Except.ok (maizeYield (rain.getD (JSNum.fin 0)) (area.getD (JSNum.fin 0))
      (fert.getD (JSNum.fin 0)) s.management, maizeLabel s.management)
  else if s.crop = "gram" then
    let rSep := parseNumber s.gRainSep
    let rOct := parseNumber s.gRainOct
    let rNov := parseNumber s.gRainNov
    let areaG := parseNumber s.gArea
    let fertG := parseNumber s.gFert
    if badNonneg rSep || badNonneg rOct || badNonneg rNov then
      Except.error "Enter rainfall for September, October, and November for Gram."
    else if badPos areaG then Except.error "Enter a valid positive area for Gram."
    else if badNonneg fertG then Except.error "Enter fertilizers (kg) for Gram."
    else Except.ok (gramFormula (rSep.getD (JSNum.fin 0)) (rOct.getD (JSNum.fin 0))
      (rNov.getD (JSNum.fin 0)) (areaG.getD (JSNum.fin 0))
      (fertG.getD (JSNum.fin 0)), " (Gram)")
  else Except.error "No formula defined for this crop."

/-- The clamp of lines 220-222: `if (predictedYield < 0) predictedYield = 0`. -/
def clampNonneg (y : JSVal) : JSVal :=
  if jsvLt y (jfin 0) then jfin 0 else y

/-- The rounding of line 225: `Math.round(predictedYield * 100) / 100`. -/
def round2JS (y : JSVal) : JSVal :=
  jsDiv100 (jsRoundJS (jsMul y (jfin 100)))

/-- The result template string of line 226. -/
def formatResult (y : JSVal) (label : String) : String :=
  jsValToString (round2JS (clampNonneg y)) ++ " quintals (approx.)" ++ label

/-- Model of `predict` from `script.js`: validate, evaluate the crop's formula,
clamp, round, and write the result — or show the first error. -/
def predict (s : FormState) : UIState :=
  match computeRaw s with
  | Except.error m => showErrorU m
  | Except.ok yl => ⟨"", false, formatResult yl.1 yl.2⟩

/-- The error `predict` reports, if any. -/
def predictErrorOf (s : FormState) : Option String :=
  if (predict s).errorVisible then some (predict s).errorText else none


/-! ## Spec-side definitions (from the specification's words, for
refinement comparisons) -/

/-- The Tur regression exactly as §4.3 of the spec states it, over
rationals. -/
def specTurFormula (rainfall area fertilizer : ℚ) : ℚ :=
  -3.32843850766629 + 0.00459239788361382 * rainfall +
    4.33370044211268 * area + 0.0763918341341603 * fertilizer

/-- The Maize base regression exactly as §4.3 of the spec states it. -/
def specMaizeBase (rainfall area fertilizer : ℚ) : ℚ :=
  -23.81399768 + 0.039441256 * rainfall + 13.03528484 * area +
    0.031329566 * fertilizer

/-- The Gram regression exactly as §4.3 of the spec states it. -/
def specGramFormula (rainSep rainOct rainNov area fertilizer : ℚ) : ℚ :=
  57.91029391 + 9.450850118 * area - 0.577080551 * rainSep +
    0.069920447 * rainOct + 0.278021178 * rainNov - 0.006839212 * fertilizer

/-- The clamp exactly as §4.4 of the spec states it: a negative result
becomes 0. -/
def specClamp (q : ℚ) : ℚ := if q < 0 then 0 else q

/-- Rounding to the nearest hundredth with halves away from zero, as the
spec's §4.4 and §8 describe the post-processing. -/
def roundHalfAwayHundredths (q : ℚ) : ℚ :=
  if q < 0 then -(((⌊-q * 100 + 1/2⌋ : ℤ) : ℚ)) / 100
  else ((⌊q * 100 + 1/2⌋ : ℤ) : ℚ) / 100

/-- First failing check of an ordered list of (failed?, message) checks —
the spec's §4.2 discipline: the first failure alone is reported. -/
def firstFailure (checks : List (Bool × String)) : Option String :=
  (checks.find? (fun c => c.1)).map (fun c => c.2)

/-- The ordered Tur checks (area positive, rainfall non-negative,
fertilizer non-negative), with the messages the code reports. -/
def turChecks (s : FormState) : List (Bool × String) :=
  [(badPos (parseNumber s.tmArea), "Enter a valid positive area for Tur."),
   (badNonneg (parseNumber s.tmRainfall), "Enter rainfall (mm) for Tur."),
   (badNonneg (parseNumber s.tmFert), "Enter fertilizers (kg) for Tur.")]

/-- The ordered Maize checks: area, rainfall, fertilizer, then the
management selection. -/
def maizeChecks (s : FormState) : List (Bool × String) :=
  [(badPos (parseNumber s.tmArea), "Enter a valid positive area for Maize."),
   (badNonneg (parseNumber s.tmRainfall), "Enter rainfall (mm) for Maize."),
   (badNonneg (parseNumber s.tmFert), "Enter fertilizers (kg) for Maize."),
   (decide (s.management = ""), "Select quality of management for Maize.")]

/-- The ordered Gram checks as the code performs them: the three monthly
rainfall values together first, then area, then fertilizer. -/
def gramChecks (s : FormState) : List (Bool × String) :=
  [(badNonneg (parseNumber s.gRainSep) || badNonneg (parseNumber s.gRainOct) ||
      badNonneg (parseNumber s.gRainNov),
    "Enter rainfall for September, October, and November for Gram."),
   (badPos (parseNumber s.gArea), "Enter a valid positive area for Gram."),
   (badNonneg (parseNumber s.gFert), "Enter fertilizers (kg) for Gram.")]

/-! ## Concrete form states used by counterexamples and witnesses -/

/-- A form state with Tur selected and the given three raw field values. -/
def turState (a r f : String) : FormState :=
  ⟨"tur", some a, some r, some f, "", none, none, none, none, none⟩

/-- A form state with Maize selected. -/
def maizeState (a r f m : String) : FormState :=
  ⟨"maize", some a, some r, some f, m, none, none, none, none, none⟩

/-- A form state with Gram selected and the given five raw field values. -/
def gramState (rs ro rn a f : String) : FormState :=
  ⟨"gram", none, none, none, "", some rs, some ro, some rn, some a, some f⟩

/-- A form state with an unsupported crop identifier selected. -/
def wheatState : FormState :=
  ⟨"wheat", none, none, none, "", none, none, none, none, none⟩

/-- A form state with no crop selected. -/
def noCropState : FormState :=
  ⟨"", none, none, none, "", none, none, none, none, none⟩

/-! ## Basic reduction lemmas -/

theorem jsAdd_fin (a b : ℚ) : jsAdd (jfin a) (jfin b) = jfin (a + b) := rfl

theorem jsMul_fin (a b : ℚ) : jsMul (jfin a) (jfin b) = jfin (a * b) := rfl

theorem turFormula_fin (r a f : ℚ) :
    turFormula (JSNum.fin r) (JSNum.fin a) (JSNum.fin f) =
      jfin (specTurFormula r a f) := rfl

theorem maizeBase_fin (r a f : ℚ) :
    maizeBase (JSNum.fin r) (JSNum.fin a) (JSNum.fin f) =
      jfin (specMaizeBase r a f) := rfl

theorem maizeYield_fin (r a f : ℚ) (m : String) :
    maizeYield (JSNum.fin r) (JSNum.fin a) (JSNum.fin f) m =
      jfin (specMaizeBase r a f * (if m = "poor" then 0.75 else 1.0)) := rfl

theorem gramFormula_fin (rs ro rn a f : ℚ) :
    gramFormula (JSNum.fin rs) (JSNum.fin ro) (JSNum.fin rn)
        (JSNum.fin a) (JSNum.fin f) = jfin (specGramFormula rs ro rn a f) := by
  have h : specGramFormula rs ro rn a f =
      57.91029391 + 9.450850118 * a + -0.577080551 * rs +
        0.069920447 * ro + 0.278021178 * rn + -0.006839212 * f := by
    unfold specGramFormula; ring
  rw [h]; rfl

theorem badPos_fin_false (a : ℚ) (h : 0 < a) :
    badPos (some (JSNum.fin a)) = false := by
  simp [badPos, jsLeN, not_le.mpr h]

theorem badNonneg_fin_false (a : ℚ) (h : 0 ≤ a) :
    badNonneg (some (JSNum.fin a)) = false := by
  simp [badNonneg, jsLtN, not_lt.mpr h]

/-! ## Concrete parse evaluations -/

theorem parse_empty : parseNumber (some "") = none := by decide

theorem parse_missing : parseNumber none = none := by decide

theorem parse_abc : parseNumber (some "abc") = none := by decide

theorem parse_zero : parseNumber (some "0") = some (JSNum.fin 0) := by decide

theorem parse_one : parseNumber (some "1") = some (JSNum.fin 1) := by decide

theorem parse_two : parseNumber (some "2") = some (JSNum.fin 2) := by decide

theorem parse_ten : parseNumber (some "10") = some (JSNum.fin 10) := by decide

theorem parse_fifty : parseNumber (some "50") = some (JSNum.fin 50) := by decide

theorem parse_hundred : parseNumber (some "100") = some (JSNum.fin 100) := by decide

theorem parse_fivehundred : parseNumber (some "500") = some (JSNum.fin 500) := by decide

theorem parse_minus_one : parseNumber (some "-1") = some (JSNum.fin (-1)) := by decide

theorem parse_inf : parseNumber (some "Infinity") = some JSNum.pinf := by decide

/-! ## Characterizations of `computeRaw` by crop -/

theorem computeRaw_tur (s : FormState) (h : s.crop = "tur") :
    computeRaw s =
      (if badPos (parseNumber s.tmArea) then
        Except.error "Enter a valid positive area for Tur."
      else if badNonneg (parseNumber s.tmRainfall) then
        Except.error "Enter rainfall (mm) for Tur."
      else if badNonneg (parseNumber s.tmFert) then
        Except.error "Enter fertilizers (kg) for Tur."
      else Except.ok (turFormula ((parseNumber s.tmRainfall).getD (JSNum.fin 0))
        ((parseNumber s.tmArea).getD (JSNum.fin 0))
        ((parseNumber s.tmFert).getD (JSNum.fin 0)), " (Tur)")) := by
  rw [computeRaw]
  simp [h]

theorem computeRaw_maize (s : FormState) (h : s.crop = "maize") :
    computeRaw s =
      (if badPos (parseNumber s.tmArea) then
        Except.error "Enter a valid positive area for Maize."
      else if badNonneg (parseNumber s.tmRainfall) then
        Except.error "Enter rainfall (mm) for Maize."
      else if badNonneg (parseNumber s.tmFert) then
        Except.error "Enter fertilizers (kg) for Maize."
      else if s.management = "" then
        Except.error "Select quality of management for Maize."
      else Except.ok (maizeYield ((parseNumber s.tmRainfall).getD (JSNum.fin 0))
        ((parseNumber s.tmArea).getD (JSNum.fin 0))
        ((parseNumber s.tmFert).getD (JSNum.fin 0)) s.management,
        maizeLabel s.management)) := by
  rw [computeRaw]
  simp [h]

theorem computeRaw_gram (s : FormState) (h : s.crop = "gram") :
    computeRaw s =
      (if badNonneg (parseNumber s.gRainSep) || badNonneg (parseNumber s.gRainOct) ||
          badNonneg (parseNumber s.gRainNov) then
        Except.error "Enter rainfall for September, October, and November for Gram."
      else if badPos (parseNumber s.gArea) then
        Except.error "Enter a valid positive area for Gram."
      else if badNonneg (parseNumber s.gFert) then
        Except.error "Enter fertilizers (kg) for Gram."
      else Except.ok (gramFormula ((parseNumber s.gRainSep).getD (JSNum.fin 0))
        ((parseNumber s.gRainOct).getD (JSNum.fin 0))
        ((parseNumber s.gRainNov).getD (JSNum.fin 0))
        ((parseNumber s.gArea).getD (JSNum.fin 0))
        ((parseNumber s.gFert).getD (JSNum.fin 0)), " (Gram)")) := by
  rw [computeRaw]
  simp [h]

theorem computeRaw_none (s : FormState) (h : s.crop = "") :
    computeRaw s = Except.error "Please select a crop." := by
  rw [computeRaw]; simp [h]

theorem computeRaw_unknown (s : FormState) (h0 : s.crop ≠ "") (h1 : s.crop ≠ "tur")
    (h2 : s.crop ≠ "maize") (h3 : s.crop ≠ "gram") :
    computeRaw s = Except.error "No formula defined for this crop." := by
  rw [computeRaw]; simp [h0, h1, h2, h3]

/-! ## Post-processing lemmas -/

theorem clampNonneg_fin (q : ℚ) : clampNonneg (jfin q) = jfin (specClamp q) := by
  by_cases h : q < 0
  · simp [clampNonneg, jsvLt, jsLtN, jfin, specClamp, h]
  · simp [clampNonneg, jsvLt, jsLtN, jfin, specClamp, h]

theorem round2JS_fin (q : ℚ) :
    round2JS (jfin q) = jfin (((⌊q * 100 + 1/2⌋ : ℤ) : ℚ) / 100) := rfl

theorem specClamp_nonneg (q : ℚ) : 0 ≤ specClamp q := by
  unfold specClamp
  split
  · exact le_refl 0
  · linarith [not_lt.mp (by assumption : ¬ q < 0)]

theorem roundHalfAway_eq_floor (q : ℚ) (h : 0 ≤ q) :
    roundHalfAwayHundredths q = ((⌊q * 100 + 1/2⌋ : ℤ) : ℚ) / 100 := by
  unfold roundHalfAwayHundredths
  rw [if_neg (not_lt.mpr h)]

theorem roundHalfAway_nonneg (q : ℚ) (h : 0 ≤ q) :
    0 ≤ roundHalfAwayHundredths q := by
  rw [roundHalfAway_eq_floor q h]
  apply div_nonneg _ (by norm_num)
  have h2 : (0:ℤ) ≤ ⌊q * 100 + 1/2⌋ := Int.floor_nonneg.mpr (by nlinarith)
  exact_mod_cast h2

theorem roundHalfAway_den (q : ℚ) : (roundHalfAwayHundredths q * 100).den = 1 := by
  unfold roundHalfAwayHundredths
  split
  · have h : -(((⌊-q * 100 + 1/2⌋ : ℤ) : ℚ)) / 100 * 100 =
        ((-⌊-q * 100 + 1/2⌋ : ℤ) : ℚ) := by
      push_cast
      field_simp
    rw [h, Rat.den_intCast]
  · have h : ((⌊q * 100 + 1/2⌋ : ℤ) : ℚ) / 100 * 100 =
        ((⌊q * 100 + 1/2⌋ : ℤ) : ℚ) := by
      field_simp
    rw [h, Rat.den_intCast]

theorem post_eq_spec (q : ℚ) :
    round2JS (clampNonneg (jfin q)) = jfin (roundHalfAwayHundredths (specClamp q)) := by
  rw [clampNonneg_fin, round2JS_fin, roundHalfAway_eq_floor _ (specClamp_nonneg q)]

/-! ## `predict` in terms of `computeRaw` -/

theorem predict_error (s : FormState) (m : String)
    (h : computeRaw s = Except.error m) : predict s = showErrorU m := by
  unfold predict
  rw [h]

theorem predict_ok (s : FormState) (y : JSVal) (l : String)
    (h : computeRaw s = Except.ok (y, l)) :
    predict s = ⟨"", false, formatResult y l⟩ := by
  unfold predict
  rw [h]

theorem predict_ok_visible (s : FormState) (y : JSVal) (l : String)
    (h : computeRaw s = Except.ok (y, l)) : (predict s).errorVisible = false := by
  rw [predict_ok s y l h]

/-! ## Claim theorems -/

/-- C1: for every validated (finite) input, the pre-clamp predicted yield of
each crop equals the spec's fixed linear regression with exactly the spec's
coefficient literals, in the stated operation order — Tur and Gram directly,
Maize as the base regression times the management factor. -/
theorem c1_formulas_match_spec :
    (∀ r a f : ℚ, turFormula (JSNum.fin r) (JSNum.fin a) (JSNum.fin f) =
      jfin (specTurFormula r a f)) ∧
    (∀ r a f : ℚ, ∀ m : String,
      maizeYield (JSNum.fin r) (JSNum.fin a) (JSNum.fin f) m =
        jfin (specMaizeBase r a f * (if m = "poor" then 0.75 else 1.0))) ∧
    (∀ rs ro rn a f : ℚ,
      gramFormula (JSNum.fin rs) (JSNum.fin ro) (JSNum.fin rn)
        (JSNum.fin a) (JSNum.fin f) = jfin (specGramFormula rs ro rn a f)) :=
  ⟨turFormula_fin, maizeYield_fin, gramFormula_fin⟩

/-- C2 counterexample: the raw value `"Infinity"` parses to a non-finite
number and is returned as such — it is not mapped to the invalid marker,
contrary to the claim that every non-finite parse maps to the marker. -/
theorem c2_nonfinite_counterexample :
    parseNumber (some "Infinity") = some JSNum.pinf ∧
    parseNumber (some "Infinity") ≠ none ∧
    (∀ q : ℚ, parseNumber (some "Infinity") ≠ some (JSNum.fin q)) := by
  refine ⟨by decide, by decide, ?_⟩
  intro q h
  rw [parse_inf] at h
  exact JSNum.noConfusion (Option.some.inj h)

/-- C2 amended: the empty string and non-numeric text map to the invalid
marker (never coerced to zero), `"0"` parses to the valid number 0, but a
value parsing to a non-finite number (`"Infinity"`, `"-Infinity"`) is
returned as that non-finite number rather than as the invalid marker,
because the code rejects only NaN. -/
theorem c2_parse_contract_amended :
    parseNumber (some "") = none ∧
    parseNumber (some "abc") = none ∧
    parseNumber (some "0") = some (JSNum.fin 0) ∧
    parseNumber (some "Infinity") = some JSNum.pinf ∧
    parseNumber (some "-Infinity") = some JSNum.ninf := by
  refine ⟨by decide, by decide, by decide, by decide, by decide⟩

/-- C4: for every valid Maize triple, the pre-round predicted yield with
management "poor" is exactly 0.75 times the one with management "good". -/
theorem c4_maize_poor_factor (r a f : ℚ)
    (ha : 0 < a) (hr : 0 ≤ r) (hf : 0 ≤ f) :
    maizeYield (JSNum.fin r) (JSNum.fin a) (JSNum.fin f) "poor" =
      jsMul (jfin 0.75)
        (maizeYield (JSNum.fin r) (JSNum.fin a) (JSNum.fin f) "good") := by
  rw [maizeYield_fin, maizeYield_fin, jsMul_fin]
  rw [if_pos (rfl : ("poor" : String) = "poor")]
  rw [if_neg (by decide : ¬ ("good" : String) = "poor")]
  exact congrArg jfin (by ring)

/-- Witness for C4 at rainfall 500, area 2, fertilizer 50. -/
theorem c4_maize_poor_factor_witness :
    (0:ℚ) < 2 ∧ (0:ℚ) ≤ 500 ∧ (0:ℚ) ≤ 50 ∧
    maizeYield (JSNum.fin 500) (JSNum.fin 2) (JSNum.fin 50) "poor" =
      jsMul (jfin 0.75)
        (maizeYield (JSNum.fin 500) (JSNum.fin 2) (JSNum.fin 50) "good") :=
  ⟨by norm_num, by norm_num, by norm_num,
    c4_maize_poor_factor 500 2 50 (by norm_num) (by norm_num) (by norm_num)⟩

/-- C10: `parseNumber` is total and treats a missing element like an
unparseable value — both produce the invalid marker `none`, so `predict`
cannot crash on an absent input field. -/
theorem c10_parse_missing_total :
    parseNumber none = none ∧
    (∀ v : String, parseFloatJS v = none → parseNumber (some v) = none) :=
  ⟨by decide, fun _ h => h⟩

/-- Witness for C10 at the unparseable value "oops". -/
theorem c10_parse_missing_total_witness :
    parseFloatJS "oops" = none ∧ parseNumber (some "oops") = none :=
  ⟨by decide, c10_parse_missing_total.2 "oops" (by decide)⟩

/-- C6: boundary behaviour — for every crop an area of 0 is rejected with
the area error, while rainfall 0 and fertilizer 0 are accepted and the
prediction proceeds. -/
theorem c6_boundary_behaviour :
    predict (turState "0" "100" "10") =
      showErrorU "Enter a valid positive area for Tur." ∧
    (predict (turState "1" "0" "0")).errorVisible = false ∧
    predict (maizeState "0" "100" "10" "good") =
      showErrorU "Enter a valid positive area for Maize." ∧
    (predict (maizeState "1" "0" "0" "good")).errorVisible = false ∧
    predict (gramState "10" "10" "10" "0" "10") =
      showErrorU "Enter a valid positive area for Gram." ∧
    (predict (gramState "0" "0" "0" "1" "0")).errorVisible = false := by
  refine ⟨?_, ?_, ?_, ?_, ?_, ?_⟩
  · apply predict_error
    rw [computeRaw_tur _ rfl]
    norm_num [turState, parse_zero, badPos, jsLeN]
  · have h := computeRaw_tur (turState "1" "0" "0") rfl
    simp only [turState] at h
    rw [parse_one, parse_zero, badPos_fin_false 1 one_pos,
      badNonneg_fin_false 0 le_rfl] at h
    simp at h
    exact predict_ok_visible _ _ _ h
  · apply predict_error
    rw [computeRaw_maize _ rfl]
    norm_num [maizeState, parse_zero, badPos, jsLeN]
  · have h := computeRaw_maize (maizeState "1" "0" "0" "good") rfl
    simp only [maizeState] at h
    rw [parse_one, parse_zero, badPos_fin_false 1 one_pos,
      badNonneg_fin_false 0 le_rfl] at h
    simp at h
    exact predict_ok_visible _ _ _ h
  · apply predict_error
    rw [computeRaw_gram _ rfl]
    norm_num [gramState, parse_zero, parse_ten, badPos, badNonneg, jsLeN, jsLtN]
  · have h := computeRaw_gram (gramState "0" "0" "0" "1" "0") rfl
    simp only [gramState] at h
    rw [parse_one, parse_zero, badPos_fin_false 1 one_pos,
      badNonneg_fin_false 0 le_rfl] at h
    simp at h
    exact predict_ok_visible _ _ _ h

/-- C3 counterexample: a Gram form whose area is invalid (missing) and whose
September rainfall is negative reports the rainfall error, not the area
error — so validation does not check area before the rainfall values, as
the claimed order (crop, area, rainfall, fertilizer) would require. -/
theorem c3_gram_order_counterexample :
    badPos (parseNumber (gramState "-1" "10" "10" "" "10").gArea) = true ∧
    predict (gramState "-1" "10" "10" "" "10") =
      showErrorU "Enter rainfall for September, October, and November for Gram." ∧
    "Enter rainfall for September, October, and November for Gram." ≠
      "Enter a valid positive area for Gram." := by
  refine ⟨?_, ?_, by decide⟩
  · simp [gramState, parse_empty, badPos]
  · apply predict_error
    rw [computeRaw_gram _ rfl]
    norm_num [gramState, parse_minus_one, badNonneg, jsLtN]

/-- C3 amended: validation applies per-crop checks in a fixed order with the
first failing check determining the single reported error — but for Gram the
code's order is the three rainfall values (together), then area, then
fertilizer, not area first; Tur and Maize check area, rainfall, fertilizer,
and (Maize) management, and the crop identifier is checked before all. -/
theorem c3_validation_order_amended (s : FormState) :
    (s.crop = "tur" → predictErrorOf s = firstFailure (turChecks s)) ∧
    (s.crop = "maize" → predictErrorOf s = firstFailure (maizeChecks s)) ∧
    (s.crop = "gram" → predictErrorOf s = firstFailure (gramChecks s)) ∧
    (s.crop = "" → predictErrorOf s = some "Please select a crop.") ∧
    (s.crop ≠ "" → s.crop ≠ "tur" → s.crop ≠ "maize" → s.crop ≠ "gram" →
      predictErrorOf s = some "No formula defined for this crop.") := by
  refine ⟨?_, ?_, ?_, ?_, ?_⟩
  · intro h
    unfold predictErrorOf predict
    rw [computeRaw_tur s h]
    unfold firstFailure turChecks
    cases hb1 : badPos (parseNumber s.tmArea) <;>
      cases hb2 : badNonneg (parseNumber s.tmRainfall) <;>
      cases hb3 : badNonneg (parseNumber s.tmFert) <;>
      simp [hb1, hb2, hb3, showErrorU]
  · intro h
    unfold predictErrorOf predict
    rw [computeRaw_maize s h]
    unfold firstFailure maizeChecks
    by_cases hm : s.management = "" <;>
      cases hb1 : badPos (parseNumber s.tmArea) <;>
      cases hb2 : badNonneg (parseNumber s.tmRainfall) <;>
      cases hb3 : badNonneg (parseNumber s.tmFert) <;>
      simp [hb1, hb2, hb3, hm, showErrorU]
  · intro h
    unfold predictErrorOf predict
    rw [computeRaw_gram s h]
    unfold firstFailure gramChecks
    cases hb1 : (badNonneg (parseNumber s.gRainSep) ||
        badNonneg (parseNumber s.gRainOct) || badNonneg (parseNumber s.gRainNov)) <;>
      cases hb2 : badPos (parseNumber s.gArea) <;>
      cases hb3 : badNonneg (parseNumber s.gFert) <;>
      simp [hb1, hb2, hb3, showErrorU]
  · intro h
    unfold predictErrorOf
    rw [predict_error s _ (computeRaw_none s h)]
    simp [showErrorU]
  · intro h0 h1 h2 h3
    unfold predictErrorOf
    rw [predict_error s _ (computeRaw_unknown s h0 h1 h2 h3)]
    simp [showErrorU]

/-- Witness for C3 (amended) at three concrete form states: a Tur state
with all fields missing, a state with no crop selected, and a state with an
unsupported crop. -/
theorem c3_validation_order_witness :
    predictErrorOf (turState "" "" "") = firstFailure (turChecks (turState "" "" "")) ∧
    predictErrorOf noCropState = some "Please select a crop." ∧
    predictErrorOf wheatState = some "No formula defined for this crop." :=
  ⟨(c3_validation_order_amended (turState "" "" "")).1 rfl,
   (c3_validation_order_amended noCropState).2.2.2.1 rfl,
   (c3_validation_order_amended wheatState).2.2.2.2
     (by decide) (by decide) (by decide) (by decide)⟩

/-- C5: for all valid (finite, in-range) inputs of every crop, `predict`
writes a result value that is the raw formula result clamped at 0 and then
rounded to the nearest hundredth with halves away from zero — in
particular it is non-negative and has exactly 2 decimal places
(times 100 it is an integer). -/
theorem c5_result_clamped_rounded :
    (∀ (s : FormState) (a r f : ℚ), s.crop = "tur" →
      parseNumber s.tmArea = some (JSNum.fin a) →
      parseNumber s.tmRainfall = some (JSNum.fin r) →
      parseNumber s.tmFert = some (JSNum.fin f) →
      0 < a → 0 ≤ r → 0 ≤ f →
      (predict s).resultValue =
        jsValToString (jfin (roundHalfAwayHundredths (specClamp (specTurFormula r a f)))) ++
          " quintals (approx.)" ++ " (Tur)" ∧
      0 ≤ roundHalfAwayHundredths (specClamp (specTurFormula r a f)) ∧
      (roundHalfAwayHundredths (specClamp (specTurFormula r a f)) * 100).den = 1) ∧
    (∀ (s : FormState) (a r f : ℚ), s.crop = "maize" →
      parseNumber s.tmArea = some (JSNum.fin a) →
      parseNumber s.tmRainfall = some (JSNum.fin r) →
      parseNumber s.tmFert = some (JSNum.fin f) →
      0 < a → 0 ≤ r → 0 ≤ f → s.management ≠ "" →
      (predict s).resultValue =
        jsValToString (jfin (roundHalfAwayHundredths (specClamp
          (specMaizeBase r a f * (if s.management = "poor" then 0.75 else 1.0))))) ++
          " quintals (approx.)" ++ maizeLabel s.management ∧
      0 ≤ roundHalfAwayHundredths (specClamp
        (specMaizeBase r a f * (if s.management = "poor" then 0.75 else 1.0))) ∧
      (roundHalfAwayHundredths (specClamp
        (specMaizeBase r a f * (if s.management = "poor" then 0.75 else 1.0))) * 100).den = 1) ∧
    (∀ (s : FormState) (rs ro rn a f : ℚ), s.crop = "gram" →
      parseNumber s.gRainSep = some (JSNum.fin rs) →
      parseNumber s.gRainOct = some (JSNum.fin ro) →
      parseNumber s.gRainNov = some (JSNum.fin rn) →
      parseNumber s.gArea = some (JSNum.fin a) →
      parseNumber s.gFert = some (JSNum.fin f) →
      0 ≤ rs → 0 ≤ ro → 0 ≤ rn → 0 < a → 0 ≤ f →
      (predict s).resultValue =
        jsValToString (jfin (roundHalfAwayHundredths (specClamp
          (specGramFormula rs ro rn a f)))) ++
          " quintals (approx.)" ++ " (Gram)" ∧
      0 ≤ roundHalfAwayHundredths (specClamp (specGramFormula rs ro rn a f)) ∧
      (roundHalfAwayHundredths (specClamp (specGramFormula rs ro rn a f)) * 100).den = 1) := by
  refine ⟨?_, ?_, ?_⟩
  · intro s a r f h hpa hpr hpf ha hr hf
    have hc := computeRaw_tur s h
    rw [hpa, hpr, hpf, badPos_fin_false a ha, badNonneg_fin_false r hr,
      badNonneg_fin_false f hf] at hc
    simp only [Bool.false_eq_true, if_false, Option.getD_some] at hc
    rw [turFormula_fin] at hc
    refine ⟨?_, roundHalfAway_nonneg _ (specClamp_nonneg _), roundHalfAway_den _⟩
    rw [predict_ok s _ _ hc]
    show formatResult (jfin (specTurFormula r a f)) " (Tur)" = _
    unfold formatResult
    rw [post_eq_spec]
  · intro s a r f h hpa hpr hpf ha hr hf hm
    have hc := computeRaw_maize s h
    rw [hpa, hpr, hpf, badPos_fin_false a ha, badNonneg_fin_false r hr,
      badNonneg_fin_false f hf] at hc
    simp only [Bool.false_eq_true, if_false, Option.getD_some, if_neg hm] at hc
    rw [maizeYield_fin] at hc
    refine ⟨?_, roundHalfAway_nonneg _ (specClamp_nonneg _), roundHalfAway_den _⟩
    rw [predict_ok s _ _ hc]
    show formatResult (jfin (specMaizeBase r a f *
      (if s.management = "poor" then 0.75 else 1.0))) (maizeLabel s.management) = _
    unfold formatResult
    rw [post_eq_spec]
  · intro s rs ro rn a f h hp1 hp2 hp3 hpa hpf hrs hro hrn ha hf
    have hc := computeRaw_gram s h
    rw [hp1, hp2, hp3, hpa, hpf, badPos_fin_false a ha, badNonneg_fin_false rs hrs,
      badNonneg_fin_false ro hro, badNonneg_fin_false rn hrn,
      badNonneg_fin_false f hf] at hc
    simp only [Bool.false_eq_true, Bool.or_self, Bool.or_false, if_false,
      Option.getD_some] at hc
    rw [gramFormula_fin] at hc
    refine ⟨?_, roundHalfAway_nonneg _ (specClamp_nonneg _), roundHalfAway_den _⟩
    rw [predict_ok s _ _ hc]
    show formatResult (jfin (specGramFormula rs ro rn a f)) " (Gram)" = _
    unfold formatResult
    rw [post_eq_spec]

/-- Witness for C5 at the Tur form (area "1", rainfall "0", fertilizer "0"). -/
theorem c5_result_clamped_rounded_witness :
    (predict (turState "1" "0" "0")).resultValue =
      jsValToString (jfin (roundHalfAwayHundredths (specClamp (specTurFormula 0 1 0)))) ++
        " quintals (approx.)" ++ " (Tur)" ∧
    0 ≤ roundHalfAwayHundredths (specClamp (specTurFormula 0 1 0)) ∧
    (roundHalfAwayHundredths (specClamp (specTurFormula 0 1 0)) * 100).den = 1 :=
  c5_result_clamped_rounded.1 (turState "1" "0" "0") 1 0 0 rfl
    (by decide) (by decide) (by decide) (by norm_num) le_rfl le_rfl

/-- C7 counterexample: with valid Maize fields and the out-of-set,
non-empty management value "excellent", `predict` raises no error and the
computation silently proceeds with the Good-management default (factor 1.0,
Good label) — contradicting "never silently substitutes a default
management quality for a value outside that set". -/
theorem c7_default_management_counterexample :
    (predict (maizeState "1" "0" "0" "excellent")).errorVisible = false ∧
    computeRaw (maizeState "1" "0" "0" "excellent") =
      Except.ok (jsMul (maizeBase (JSNum.fin 0) (JSNum.fin 1) (JSNum.fin 0)) (jfin 1.0),
        " (Maize, Good management)") := by
  have hc := computeRaw_maize (maizeState "1" "0" "0" "excellent") rfl
  simp only [maizeState] at hc
  rw [parse_one, parse_zero, badPos_fin_false 1 one_pos,
    badNonneg_fin_false 0 le_rfl] at hc
  simp only [Bool.false_eq_true, if_false, Option.getD_some,
    if_neg (by decide : ¬ ("excellent" : String) = "")] at hc
  rw [show maizeYield (JSNum.fin 0) (JSNum.fin 1) (JSNum.fin 0) "excellent" =
    jsMul (maizeBase (JSNum.fin 0) (JSNum.fin 1) (JSNum.fin 0)) (jfin 1.0) from by
      unfold maizeYield
      rw [if_neg (by decide : ¬ ("excellent" : String) = "poor")],
    show maizeLabel "excellent" = " (Maize, Good management)" from by
      unfold maizeLabel
      rw [if_neg (by decide : ¬ ("excellent" : String) = "poor")]] at hc
  exact ⟨predict_ok_visible _ _ _ hc, hc⟩

/-- C7 amended: for Maize with otherwise valid fields, an absent (empty)
management selection is an error; but a non-empty management value is never
rejected — any value other than "poor" is silently treated as Good
management (factor 1.0), and "poor" as Poor management (factor 0.75). -/
theorem c7_management_amended (s : FormState) (a r f : ℚ) (h : s.crop = "maize")
    (hpa : parseNumber s.tmArea = some (JSNum.fin a))
    (hpr : parseNumber s.tmRainfall = some (JSNum.fin r))
    (hpf : parseNumber s.tmFert = some (JSNum.fin f))
    (ha : 0 < a) (hr : 0 ≤ r) (hf : 0 ≤ f) :
    (s.management = "" →
      predict s = showErrorU "Select quality of management for Maize.") ∧
    (s.management ≠ "" → s.management ≠ "poor" →
      computeRaw s = Except.ok
        (jsMul (maizeBase (JSNum.fin r) (JSNum.fin a) (JSNum.fin f)) (jfin 1.0),
          " (Maize, Good management)")) ∧
    (s.management = "poor" →
      computeRaw s = Except.ok
        (jsMul (maizeBase (JSNum.fin r) (JSNum.fin a) (JSNum.fin f)) (jfin 0.75),
          " (Maize, Poor management)")) := by
  have hc := computeRaw_maize s h
  rw [hpa, hpr, hpf, badPos_fin_false a ha, badNonneg_fin_false r hr,
    badNonneg_fin_false f hf] at hc
  simp only [Bool.false_eq_true, if_false, Option.getD_some] at hc
  refine ⟨?_, ?_, ?_⟩
  · intro hm
    apply predict_error
    rw [hc, if_pos hm]
  · intro hm hp
    rw [hc, if_neg hm]
    unfold maizeYield maizeLabel
    rw [if_neg hp, if_neg hp]
  · intro hp
    rw [hc, if_neg (by rw [hp]; decide : ¬ s.management = "")]
    unfold maizeYield maizeLabel
    rw [if_pos hp, if_pos hp]

/-- Witness for C7 (amended) at the Maize form (area "1", rainfall "0",
fertilizer "0") with management value "poor". -/
theorem c7_management_amended_witness :
    computeRaw (maizeState "1" "0" "0" "poor") =
      Except.ok (jsMul (maizeBase (JSNum.fin 0) (JSNum.fin 1) (JSNum.fin 0)) (jfin 0.75),
        " (Maize, Poor management)") :=
  (c7_management_amended (maizeState "1" "0" "0" "poor") 1 0 0 rfl
    (by decide) (by decide) (by decide) (by norm_num) le_rfl le_rfl).2.2 rfl

/-- Every error message `computeRaw` can produce (used to show messages are
non-empty and human-readable). -/
theorem computeRaw_error_mem (s : FormState) (m : String)
    (h : computeRaw s = Except.error m) :
    m ∈ ["Please select a crop.",
      "Enter a valid positive area for Tur.", "Enter rainfall (mm) for Tur.",
      "Enter fertilizers (kg) for Tur.",
      "Enter a valid positive area for Maize.", "Enter rainfall (mm) for Maize.",
      "Enter fertilizers (kg) for Maize.", "Select quality of management for Maize.",
      "Enter rainfall for September, October, and November for Gram.",
      "Enter a valid positive area for Gram.", "Enter fertilizers (kg) for Gram.",
      "No formula defined for this crop."] := by
  by_cases h0 : s.crop = ""
  · rw [computeRaw_none s h0] at h
    injection h with hm
    rw [← hm]; decide
  by_cases h1 : s.crop = "tur"
  · rw [computeRaw_tur s h1] at h
    repeat' split at h
    all_goals first
      | exact Except.noConfusion h
      | (injection h with hm; rw [← hm]; decide)
  by_cases h2 : s.crop = "maize"
  · rw [computeRaw_maize s h2] at h
    repeat' split at h
    all_goals first
      | exact Except.noConfusion h
      | (injection h with hm; rw [← hm]; decide)
  by_cases h3 : s.crop = "gram"
  · rw [computeRaw_gram s h3] at h
    repeat' split at h
    all_goals first
      | exact Except.noConfusion h
      | (injection h with hm; rw [← hm]; decide)
  · rw [computeRaw_unknown s h0 h1 h2 h3] at h
    injection h with hm
    rw [← hm]; decide

/-- A successful result string is never empty (it contains the literal
" quintals (approx.)"). -/
theorem formatResult_ne_empty (y : JSVal) (l : String) : formatResult y l ≠ "" := by
  unfold formatResult
  intro hcontra
  have hlen := congrArg String.length hcontra
  rw [String.length_append, String.length_append] at hlen
  have h19 : (" quintals (approx.)" : String).length = 19 := by decide
  rw [h19] at hlen
  have h0 : ("" : String).length = 0 := by decide
  rw [h0] at hlen
  omega

/-- A successful Tur computation always carries the Tur label. -/
theorem computeRaw_label_tur (s : FormState) (y : JSVal) (l : String)
    (hcrop : s.crop = "tur") (h : computeRaw s = Except.ok (y, l)) :
    l = " (Tur)" := by
  rw [computeRaw_tur s hcrop] at h
  repeat' split at h
  all_goals try exact Except.noConfusion h
  injection h with h2
  exact (congrArg Prod.snd h2).symm

/-- A successful Maize computation always carries the label selected by the
management value. -/
theorem computeRaw_label_maize (s : FormState) (y : JSVal) (l : String)
    (hcrop : s.crop = "maize") (h : computeRaw s = Except.ok (y, l)) :
    l = maizeLabel s.management := by
  rw [computeRaw_maize s hcrop] at h
  repeat' split at h
  all_goals try exact Except.noConfusion h
  injection h with h2
  exact (congrArg Prod.snd h2).symm

/-- A successful Gram computation always carries the Gram label. -/
theorem computeRaw_label_gram (s : FormState) (y : JSVal) (l : String)
    (hcrop : s.crop = "gram") (h : computeRaw s = Except.ok (y, l)) :
    l = " (Gram)" := by
  rw [computeRaw_gram s hcrop] at h
  repeat' split at h
  all_goals try exact Except.noConfusion h
  injection h with h2
  exact (congrArg Prod.snd h2).symm

/-- C8: on every validation failure — including a missing or unknown crop —
`predict` shows a single non-empty error message and leaves the result
field empty; on success it shows no error and writes a non-empty result:
no partial or default numeric result is ever produced. -/
theorem c8_error_handling :
    (∀ s : FormState,
      ((predict s).errorVisible = true ∧ (predict s).errorText ≠ "" ∧
        (predict s).resultValue = "") ∨
      ((predict s).errorVisible = false ∧ (predict s).resultValue ≠ "")) ∧
    (∀ s : FormState, s.crop = "" →
      predict s = showErrorU "Please select a crop.") ∧
    (∀ s : FormState, s.crop ≠ "" → s.crop ≠ "tur" → s.crop ≠ "maize" →
      s.crop ≠ "gram" →
      predict s = showErrorU "No formula defined for this crop.") := by
  refine ⟨?_, ?_, ?_⟩
  · intro s
    cases hcr : computeRaw s with
    | error m =>
        left
        rw [predict_error s m hcr]
        refine ⟨rfl, ?_, rfl⟩
        have hm := computeRaw_error_mem s m hcr
        intro he
        have he2 : m = "" := he
        rw [he2] at hm
        revert hm
        decide
    | ok yl =>
        right
        rw [predict_ok s yl.1 yl.2 hcr]
        exact ⟨rfl, formatResult_ne_empty _ _⟩
  · intro s h
    exact predict_error s _ (computeRaw_none s h)
  · intro s h0 h1 h2 h3
    exact predict_error s _ (computeRaw_unknown s h0 h1 h2 h3)

/-- Witness for C8 at a form with no crop selected and a form with an
unsupported crop. -/
theorem c8_error_handling_witness :
    predict noCropState = showErrorU "Please select a crop." ∧
    predict wheatState = showErrorU "No formula defined for this crop." :=
  ⟨c8_error_handling.2.1 noCropState rfl,
   c8_error_handling.2.2 wheatState (by decide) (by decide) (by decide) (by decide)⟩

/-- C9: on every successful prediction the result field is exactly
`"<value> quintals (approx.)<label>"`, where `<value>` is the clamped and
rounded yield and `<label>` is one of " (Tur)", " (Maize, Good management)",
" (Maize, Poor management)", " (Gram)", chosen by the selected crop and,
for Maize, by the management selection. -/
theorem c9_output_format (s : FormState) (y : JSVal) (label : String)
    (h : computeRaw s = Except.ok (y, label)) :
    (predict s).errorVisible = false ∧
    (predict s).resultValue =
      jsValToString (round2JS (clampNonneg y)) ++ " quintals (approx.)" ++ label ∧
    (label = " (Tur)" ∨ label = " (Maize, Good management)" ∨
      label = " (Maize, Poor management)" ∨ label = " (Gram)") ∧
    (s.crop = "tur" → label = " (Tur)") ∧
    (s.crop = "maize" → label = maizeLabel s.management) ∧
    (s.crop = "gram" → label = " (Gram)") := by
  refine ⟨predict_ok_visible s y label h, ?_, ?_, ?_, ?_, ?_⟩
  · rw [predict_ok s y label h]
    rfl
  · by_cases h0 : s.crop = ""
    · rw [computeRaw_none s h0] at h
      exact Except.noConfusion h
    by_cases h1 : s.crop = "tur"
    · exact Or.inl (computeRaw_label_tur s y label h1 h)
    by_cases h2 : s.crop = "maize"
    · have hl := computeRaw_label_maize s y label h2 h
      unfold maizeLabel at hl
      by_cases hp : s.management = "poor"
      · rw [if_pos hp] at hl
        exact Or.inr (Or.inr (Or.inl hl))
      · rw [if_neg hp] at hl
        exact Or.inr (Or.inl hl)
    by_cases h3 : s.crop = "gram"
    · exact Or.inr (Or.inr (Or.inr (computeRaw_label_gram s y label h3 h)))
    · rw [computeRaw_unknown s h0 h1 h2 h3] at h
      exact Except.noConfusion h
  · exact fun hc => computeRaw_label_tur s y label hc h
  · exact fun hc => computeRaw_label_maize s y label hc h
  · exact fun hc => computeRaw_label_gram s y label hc h

/-- Witness for C9 at the Tur form (area "1", rainfall "0", fertilizer "0"). -/
theorem c9_output_format_witness :
    (predict (turState "1" "0" "0")).errorVisible = false ∧
    (predict (turState "1" "0" "0")).resultValue =
      jsValToString (round2JS (clampNonneg
        (turFormula (JSNum.fin 0) (JSNum.fin 1) (JSNum.fin 0)))) ++
        " quintals (approx.)" ++ " (Tur)" ∧
    ((" (Tur)" : String) = " (Tur)" ∨ (" (Tur)" : String) = " (Maize, Good management)" ∨
      (" (Tur)" : String) = " (Maize, Poor management)" ∨ (" (Tur)" : String) = " (Gram)") ∧
    ((turState "1" "0" "0").crop = "tur" → (" (Tur)" : String) = " (Tur)") ∧
    ((turState "1" "0" "0").crop = "maize" →
      (" (Tur)" : String) = maizeLabel (turState "1" "0" "0").management) ∧
    ((turState "1" "0" "0").crop = "gram" → (" (Tur)" : String) = " (Gram)") :=
  c9_output_format (turState "1" "0" "0")
    (turFormula (JSNum.fin 0) (JSNum.fin 1) (JSNum.fin 0)) " (Tur)"
    (by
      have hc := computeRaw_tur (turState "1" "0" "0") rfl
      simp only [turState] at hc
      rw [parse_one, parse_zero, badPos_fin_false 1 one_pos,
        badNonneg_fin_false 0 le_rfl] at hc
      simp only [Bool.false_eq_true, if_false, Option.getD_some] at hc
      exact hc)
